import Mathlib

/-!
# A shallow embedding of `logger.go`

The Go package `logger` runs one mediator goroutine (`mediateChannels`) that
receives payloads from five severity channels, a signal channel and an exit
channel, formats them and either writes them to the base logger or runs the
shutdown sequence (`genericExitSequence`).

Embedding conventions.

* A Go `error` value is a record carrying the text its `Error()` method
  returns; an `error` interface that may be nil is an `Option GoError`.
* A payload of static type `any` is a `GoAny`; the type switch of
  `convertToError` distinguishes its three arms.
* Calling a method through a nil interface is a run-time panic; the mediator
  goroutine has no `recover`, so a panic ends the process.
* `os.Exit` ends the process; the outcome of a handler records the status.
* The calls on `m.baseLogger` and on `log.Default()` are recorded, in program
  order, as a list of `Effect`s; each carries the logger it is made on, so a
  base logger that is the default logger itself is seen as such.
* `colorWrap` and the colour constants are declared in a file of the package
  other than `logger.go`: the colour constants are kept as
  names and `colorWrap` is a parameter of every definition that calls it.
* The base logger handed to `StartLogger` is a usable, non-nil `*log.Logger`,
  and the `Error()` method of an error payload returns.
* What `select` delivers to the loop is its input: a list of `Recv` values,
  in the order in which the loop received them.
-/

namespace Logger

/-! ## Values -/

/-- A non-nil Go `error` value, observed through its `Error()` method. -/
structure GoError where
  Error : String
deriving DecidableEq, Repr

/-- The Go function `errors.New(text)`: a non-nil error whose message is `text`. -/
def errorsNew (text : String) : GoError := ⟨text⟩

/-- A Go value of static type `any`, split by the arms of the type switch in
`convertToError`: a value whose dynamic type implements `error`, a `string`,
and everything else (an integer, the nil interface, a value of some other
named type). -/
inductive GoAny where
  | error (t : GoError)
  | string (t : String)
  | int (n : Int)
  | nil
  | other (typeName : String)
deriving DecidableEq, Repr

/-- A payload is unsupported when it is neither an error value nor a string. -/
def GoAny.unsupported : GoAny → Bool
  | .error _ => false
  | .string _ => false
  | _ => true

/-- The five severity channels of the struct `channels`: the fields `crit`,
`err`, `warn`, `info` and `debug`. -/
inductive Severity where
  | crit | err | warn | info | debug
deriving DecidableEq, Repr

/-- The colour constants named in `mediateChannels`. -/
inductive Color where
  | PURPLE | RED | YELLOW | WHITE | BLUE
deriving DecidableEq, Repr

/-- The two signals registered by `signal.Notify(SIGS, syscall.SIGINT, syscall.SIGTERM)`. -/
inductive Signal where
  | SIGINT | SIGTERM
deriving DecidableEq, Repr

/-- The method `String()` of `syscall.Signal` on the two registered signals. -/
def Signal.name : Signal → String
  | .SIGINT => "interrupt"
  | .SIGTERM => "terminated"

/-! ## Time -/

/-- An instant, in nanoseconds counted from the zero value of `time.Time`. -/
structure Time where
  nsec : Int
deriving DecidableEq, Repr

/-- The zero value of `time.Time`, which a struct field holds until assigned. -/
def Time.zero : Time := ⟨0⟩

/-- The largest `time.Duration`, in nanoseconds. -/
def maxDuration : Int := 2 ^ 63 - 1

/-- The smallest `time.Duration`, in nanoseconds. -/
def minDuration : Int := -(2 ^ 63)

/-- The method `t.Sub(u)`: the difference in nanoseconds, saturated to the
range of `time.Duration`. -/
def Time.Sub (t u : Time) : Int :=
  let d := t.nsec - u.nsec
  if d > maxDuration then maxDuration
  else if d < minDuration then minDuration
  else d

/-- The function `time.Since(t)`, with the clock reading `now` made explicit. -/
def timeSince (now t : Time) : Int := now.Sub t

/-! ## The logger -/

/-- The package variable `chBufSize`. -/
def chBufSize : Nat := 100

/-- The struct `channels`; each field records the capacity its channel was made with. -/
structure channels where
  crit : Nat
  err : Nat
  warn : Nat
  info : Nat
  debug : Nat
  SIGS : Nat
  exit : Nat
deriving DecidableEq, Repr

/-- A `*log.Logger`, by identity: the standard logger that `log.Default()`
returns, or another logger (one made by `log.New`), told apart by a number. -/
inductive LoggerRef where
  | Default
  | New (id : Nat)
deriving DecidableEq, Repr

/-- The struct `Mylogger`. -/
structure Mylogger where
  start : Time
  chans : channels
  baseLogger : LoggerRef
deriving DecidableEq, Repr

/-- The method `StartTime`. -/
def Mylogger.StartTime (m : Mylogger) : Time := m.start

/-- The function `StartLogger`: the composite literal sets `baseLogger` only,
then `chans` is assigned; the field `start` is left at its zero value. -/
def StartLogger (logger : LoggerRef) : Mylogger :=
  let CRITCH := chBufSize
  let ERRCH := chBufSize
  let WARNCH := chBufSize
  let INFOCH := chBufSize
  let DEBUGCH := chBufSize
  let SIGS := 1
  let EXIT := 1
  let l : Mylogger := { start := Time.zero, chans := ⟨0, 0, 0, 0, 0, 0, 0⟩, baseLogger := logger }
  { l with chans := { crit := CRITCH, err := ERRCH, warn := WARNCH, info := INFOCH,
                      debug := DEBUGCH, exit := EXIT, SIGS := SIGS } }

/-- The function `convertToError`; `none` is the nil `error`. -/
def convertToError : GoAny → Option GoError
  | .error t => some t
  | .string t => some (errorsNew t)
  | _ => none

/-! ## Effects and outcomes -/

/-- An operand of a `Printf` call made by the logger. -/
inductive Value where
  | error (e : GoError)
  | duration (d : Int)
deriving DecidableEq, Repr

/-- One call on a `*log.Logger`: the method called, the logger it is called
on, and the arguments. -/
inductive Effect where
  | Printf (l : LoggerRef) (format : String) (args : List Value)
  | Println (l : LoggerRef) (arg : String)
deriving DecidableEq, Repr

/-- The logger a call is made on. -/
def Effect.logger : Effect → LoggerRef
  | .Printf l _ _ => l
  | .Println l _ => l

/-- How the process stands after a handler: still in the loop, ended by
`os.Exit(code)`, or ended by a run-time panic. -/
inductive Status where
  | running
  | exited (code : Int)
  | panicked
deriving DecidableEq, Repr

/-- The calls made, in order, and the status reached. -/
structure Outcome where
  effects : List Effect
  status : Status
deriving DecidableEq, Repr

/-- The method `genericExitSequence`; `now` is the clock reading of `time.Since`. -/
def genericExitSequence (m : Mylogger) (now : Time) (e : Option GoError) : Outcome :=
  let first : List Effect × Int :=
    match e with
    | some x => ([Effect.Printf LoggerRef.Default "Error: %v" [Value.error x]], 1)
    | none => ([], 0)
  { effects := first.1 ++ [Effect.Println m.baseLogger "Server stopped",
      Effect.Printf m.baseLogger "Server ran for %s" [Value.duration (timeSince now m.StartTime)]],
    status := Status.exited first.2 }

/-- What one `select` of the mediator loop received: `sev c e` is the value `e`
taken from the severity channel `c`, `exit` a value from the exit channel
(the value is discarded), `SIGS s` the signal `s` from the signal channel. -/
inductive Recv where
  | sev (c : Severity) (e : GoAny)
  | exit
  | SIGS (s : Signal)
deriving DecidableEq, Repr

/-- The body of the `select` statement in `mediateChannels`, one arm per case.
The expression `convertToError(e).Error()` panics when `convertToError`
returns nil. -/
def selectCase (colorWrap : Color → String → String) (m : Mylogger) (now : Time) :
    Recv → Outcome
  | .sev .crit e =>
    let t := colorWrap Color.PURPLE "CRITICAL"
    match convertToError e with
    | none => ⟨[], Status.panicked⟩
    | some x =>
      let msg := errorsNew (t ++ " " ++ x.Error)
      genericExitSequence m now (some msg)
  | .sev .err e =>
    let t := colorWrap Color.RED "ERROR"
    match convertToError e with
    | none => ⟨[], Status.panicked⟩
    | some x =>
      let msg := errorsNew (t ++ " " ++ x.Error)
      ⟨[Effect.Println m.baseLogger msg.Error], Status.running⟩
  | .sev .warn e =>
    let t := colorWrap Color.YELLOW "WARNING"
    match convertToError e with
    | none => ⟨[], Status.panicked⟩
    | some x =>
      let msg := errorsNew (t ++ " " ++ x.Error)
      ⟨[Effect.Println m.baseLogger msg.Error], Status.running⟩
  | .sev .info e =>
    let t := colorWrap Color.WHITE "INFO"
    match convertToError e with
    | none => ⟨[], Status.panicked⟩
    | some x =>
      let msg := errorsNew (t ++ " " ++ x.Error)
      ⟨[Effect.Printf m.baseLogger msg.Error []], Status.running⟩
  | .sev .debug e =>
    let t := colorWrap Color.BLUE "DEBUG"
    match convertToError e with
    | none => ⟨[], Status.panicked⟩
    | some x =>
      let msg := errorsNew (t ++ " " ++ x.Error)
      ⟨[Effect.Printf m.baseLogger msg.Error []], Status.running⟩
  | .exit => genericExitSequence m now none
  | .SIGS s =>
    let t := colorWrap Color.PURPLE "INTSIGNAL"
    match convertToError (GoAny.string s.name) with
    | none => ⟨[], Status.panicked⟩
    | some x =>
      let msg := errorsNew (t ++ " " ++ x.Error)
      let r := genericExitSequence m now none
      ⟨Effect.Println m.baseLogger msg.Error :: r.effects, r.status⟩

/-- The loop of `mediateChannels` run on the values its `select` receives, in
order: a handler that leaves the process running is followed by the next
receive; an exit or a panic ends the run whatever is still pending; when the
list is used up the loop is blocked in `select`, still running. -/
def mediateChannels (colorWrap : Color → String → String) (m : Mylogger) (now : Time) :
    List Recv → Outcome
  | [] => ⟨[], Status.running⟩
  | r :: rest =>
    let o := selectCase colorWrap m now r
    match o.status with
    | Status.running =>
      let t := mediateChannels colorWrap m now rest
      ⟨o.effects ++ t.effects, t.status⟩
    | _ => o

/-! ## What the base logger writes

The methods of `*log.Logger` belong to the Go standard library. `Println(arg)`
hands `fmt.Sprintln(arg)` to the logger and `Printf(format, args...)` hands it
`fmt.Sprintf(format, args...)`; the logger then writes its own header, the
text, and a newline when the text does not end in one. Below is `fmt.Sprintf`
for a call without operands, following `doPrintf` of package `fmt`: every
character other than `%` is copied, and a `%` starts a verb that has no
operand to print. Strings are taken as sequences of characters. -/

/-- The flag characters that `doPrintf` skips after a `%`. -/
def isFlag (c : Char) : Bool :=
  c == '#' || c == '0' || c == '+' || c == '-' || c == ' '

/-- The loop of `parsenum`: read decimal digits, giving the number, whether a
digit was read, and the text left; a number above one million gives up and
consumes the whole slice. -/
def parsenumLoop : List Char → Nat → Bool → Nat × Bool × List Char
  | [], num, isnum => (num, isnum, [])
  | c :: cs, num, isnum =>
    if '0' ≤ c ∧ c ≤ '9' then
      if num > 1000000 then (0, false, [])
      else parsenumLoop cs (num * 10 + (c.toNat - '0'.toNat)) true
    else (num, isnum, c :: cs)

/-- The function `parsenum` of package `fmt` on the slice it is given. -/
def parsenum (s : List Char) : Nat × Bool × List Char := parsenumLoop s 0 false

/-- The function `parseArgNumber` of package `fmt`: `format` starts with `[`;
the result is the index, the number of characters to skip, and success. -/
def parseArgNumber (format : List Char) : Int × Nat × Bool :=
  if format.length < 3 then (0, 1, false)
  else
    let inner := (format.drop 1).takeWhile (fun c => c != ']')
    if inner.length = (format.drop 1).length then (0, 1, false)
    else
      let i := inner.length + 1
      let r := parsenum inner
      if !r.2.1 || !r.2.2.isEmpty then (0, i + 1, false)
      else ((r.1 : Int) - 1, i + 1, true)

/-- The state of `doPrintf` while it reads one verb: the text written for the
verb so far, the format left, and the two flags `afterIndex`, `goodArgNum`. -/
structure VerbState where
  out : String
  rest : List Char
  afterIndex : Bool
  goodArgNum : Bool
deriving DecidableEq, Repr

/-- The method `argNumber` of package `fmt` for a call without operands: no
index is in range, so an index clears `goodArgNum`. -/
def argNumber (st : VerbState) : VerbState :=
  match st.rest with
  | '[' :: _ =>
    let r := parseArgNumber st.rest
    { st with rest := st.rest.drop r.2.1, afterIndex := r.2.2, goodArgNum := false }
  | _ => { st with afterIndex := false }

/-- One verb of `doPrintf`, read after its `%`, for a call without operands:
flags, argument index, width, precision, argument index, verb. A `.` starts
a precision only when a character follows it (`i+1 < end`); a `.` that ends
the format is taken as the verb. The result is
the text written and the format left, `none` when the format ended inside
the verb. -/
def doVerb (format : List Char) : String × Option (List Char) :=
  let s1 := argNumber ⟨"", format.dropWhile isFlag, false, true⟩
  let s2 : VerbState :=
    match s1.rest with
    | '*' :: r => { s1 with out := s1.out ++ "%!(BADWIDTH)", rest := r, afterIndex := false }
    | f =>
      let n := parsenum f
      { s1 with rest := n.2.2, goodArgNum := s1.goodArgNum && !(s1.afterIndex && n.2.1) }
  let s3 : VerbState :=
    match s2.rest with
    | '.' :: c :: r =>
      let a := argNumber
        { s2 with rest := c :: r, goodArgNum := s2.goodArgNum && !s2.afterIndex }
      match a.rest with
      | '*' :: r2 => { a with out := a.out ++ "%!(BADPREC)", rest := r2, afterIndex := false }
      | f => { a with rest := (parsenum f).2.2 }
    | _ => s2
  let s4 : VerbState := if s3.afterIndex then s3 else argNumber s3
  match s4.rest with
  | [] => (s4.out ++ "%!(NOVERB)", none)
  | verb :: rest =>
    if verb == '%' then (s4.out ++ "%", some rest)
    else if !s4.goodArgNum then
      (s4.out ++ "%!" ++ String.singleton verb ++ "(BADINDEX)", some rest)
    else (s4.out ++ "%!" ++ String.singleton verb ++ "(MISSING)", some rest)

/-- The format loop of `doPrintf` for a call without operands; every round
consumes at least one character, so the length of the format bounds the
number of rounds. -/
def doPrintfLoop : Nat → List Char → String
  | 0, _ => ""
  | fuel + 1, format =>
    let lit := format.takeWhile (fun c => c != '%')
    match format.dropWhile (fun c => c != '%') with
    | [] => String.mk lit
    | _ :: afterPercent =>
      match doVerb afterPercent with
      | (out, none) => String.mk lit ++ out
      | (out, some rest) => String.mk lit ++ out ++ doPrintfLoop fuel rest

/-- The call `fmt.Sprintf(format)` without operands. -/
def Sprintf0 (format : String) : String :=
  doPrintfLoop (format.length + 1) format.toList

/-- The end of `(*log.Logger).Output`: a newline is added to a text that does
not end in one. -/
def logOutput (s : String) : String :=
  if s.toList.getLast? = some '\n' then s else s ++ "\n"

/-- The text, after the header of the logger, that a call writes on its
logger: `Println(arg)` writes `arg` and a newline, `Printf(format)` without
operands writes `Sprintf0 format`. A `Printf` with operands gives `none`: its
text is not needed below. -/
def Effect.written : Effect → Option String
  | .Println _ arg => some (logOutput (arg ++ "\n"))
  | .Printf _ format [] => some (logOutput (Sprintf0 format))
  | _ => none

/-! ## Tables read off the arms of the `select` -/

/-- The tag literal passed to `colorWrap` in the arm of each severity channel. -/
def Severity.tag : Severity → String
  | .crit => "CRITICAL"
  | .err => "ERROR"
  | .warn => "WARNING"
  | .info => "INFO"
  | .debug => "DEBUG"

/-- The colour constant passed to `colorWrap` in the arm of each severity channel. -/
def Severity.color : Severity → Color
  | .crit => Color.PURPLE
  | .err => Color.RED
  | .warn => Color.YELLOW
  | .info => Color.WHITE
  | .debug => Color.BLUE

/-- The call on the base logger by which the arm of a severity channel other
than the critical one writes its text: `Printf` with the text as format in
the info and debug arms, `Println` in the error and warning arms. -/
def Severity.write (c : Severity) (l : LoggerRef) (text : String) : Effect :=
  match c with
  | .info => Effect.Printf l text []
  | .debug => Effect.Printf l text []
  | _ => Effect.Println l text

/-- The message text an effect carries: the error operand of a `Printf` with
one operand, the argument of `Println`, the format of a `Printf` without
operands. -/
def Effect.text : Effect → Option String
  | .Printf _ _ [Value.error e] => some e.Error
  | .Println _ arg => some arg
  | .Printf _ format [] => some format
  | _ => none

/-- The text built by a handler: the one its first call carries. -/
def Outcome.builtText (o : Outcome) : Option String :=
  o.effects.head?.bind Effect.text

/-- The receives whose arm calls `genericExitSequence`: a critical payload
that `convertToError` accepts, an exit request, a signal. -/
def Recv.invokesExit : Recv → Bool
  | .sev .crit e => (convertToError e).isSome
  | .exit => true
  | .SIGS _ => true
  | _ => false

/-- Whether a call is made on the default logger, the fallback stream: so is
every call on a base logger that is the default logger. -/
def Effect.onDefault (e : Effect) : Bool :=
  decide (e.logger = LoggerRef.Default)

/-- A sample colorizer for evaluating the handlers on concrete inputs: the
tag between an ANSI colour sequence and the reset sequence. -/
def sampleWrap (c : Color) (s : String) : String :=
  let code :=
    match c with
    | .PURPLE => "35"
    | .RED => "31"
    | .YELLOW => "33"
    | .WHITE => "37"
    | .BLUE => "34"
  "\x1b[" ++ code ++ "m" ++ s ++ "\x1b[0m"

/-! ## Theorems -/

/-- C2: `convertToError` returns an error-typed payload itself, and turns a
string payload (the empty one included) into a non-nil error whose message is
exactly that string. -/
theorem convertToError_normalizes :
    (∀ e : GoError, convertToError (GoAny.error e) = some e) ∧
    (∀ s : String, ∃ r : GoError, convertToError (GoAny.string s) = some r ∧ r.Error = s) :=
  ⟨fun _ => rfl, fun s => ⟨errorsNew s, rfl, rfl⟩⟩

/-! ### Helper lemmas on the loop -/

/-- A handler whose receive does not call the exit sequence and whose payload
is accepted leaves the process running or panics; it never exits. -/
theorem selectCase_status_exited_iff (colorWrap : Color → String → String) (m : Mylogger)
    (now : Time) (r : Recv) :
    r.invokesExit = true ↔ ∃ code, (selectCase colorWrap m now r).status = Status.exited code := by
  rcases r with ⟨c, e⟩ | _ | s
  · cases c <;> cases e <;>
      simp [Recv.invokesExit, selectCase, convertToError, genericExitSequence]
  · simp [Recv.invokesExit, selectCase, genericExitSequence]
  · simp [Recv.invokesExit, selectCase, convertToError, genericExitSequence]

/-- The loop after a handler that left the process running. -/
theorem mediateChannels_cons_running (colorWrap : Color → String → String) (m : Mylogger)
    (now : Time) (r : Recv) (rest : List Recv)
    (h : (selectCase colorWrap m now r).status = Status.running) :
    mediateChannels colorWrap m now (r :: rest) =
      ⟨(selectCase colorWrap m now r).effects ++ (mediateChannels colorWrap m now rest).effects,
       (mediateChannels colorWrap m now rest).status⟩ := by
  simp only [mediateChannels, h]

/-- The loop after a handler that ended the process. -/
theorem mediateChannels_cons_stopped (colorWrap : Color → String → String) (m : Mylogger)
    (now : Time) (r : Recv) (rest : List Recv)
    (h : (selectCase colorWrap m now r).status ≠ Status.running) :
    mediateChannels colorWrap m now (r :: rest) = selectCase colorWrap m now r := by
  unfold mediateChannels
  cases hs : (selectCase colorWrap m now r).status with
  | running => exact absurd hs h
  | exited code => simp only [hs]
  | panicked => simp only [hs]

/-- A run that is still in the loop continues with the receives that follow. -/
theorem mediateChannels_append (colorWrap : Color → String → String) (m : Mylogger)
    (now : Time) (pre rest : List Recv)
    (h : (mediateChannels colorWrap m now pre).status = Status.running) :
    mediateChannels colorWrap m now (pre ++ rest) =
      ⟨(mediateChannels colorWrap m now pre).effects ++
        (mediateChannels colorWrap m now rest).effects,
       (mediateChannels colorWrap m now rest).status⟩ := by
  induction pre with
  | nil => simp [mediateChannels]
  | cons r pre ih =>
    by_cases hs : (selectCase colorWrap m now r).status = Status.running
    · rw [mediateChannels_cons_running colorWrap m now r pre hs] at h
      rw [List.cons_append, mediateChannels_cons_running colorWrap m now r _ hs,
        mediateChannels_cons_running colorWrap m now r pre hs, ih h]
      simp
    · rw [mediateChannels_cons_stopped colorWrap m now r pre hs] at h
      exact absurd h hs

/-- A run that has left the loop is not changed by the receives that follow. -/
theorem mediateChannels_stopped (colorWrap : Color → String → String) (m : Mylogger)
    (now : Time) (pre rest : List Recv)
    (h : (mediateChannels colorWrap m now pre).status ≠ Status.running) :
    mediateChannels colorWrap m now (pre ++ rest) = mediateChannels colorWrap m now pre := by
  induction pre with
  | nil => simp [mediateChannels] at h
  | cons r pre ih =>
    by_cases hs : (selectCase colorWrap m now r).status = Status.running
    · rw [mediateChannels_cons_running colorWrap m now r pre hs] at h
      rw [List.cons_append, mediateChannels_cons_running colorWrap m now r _ hs,
        mediateChannels_cons_running colorWrap m now r pre hs, ih h]
    · rw [List.cons_append, mediateChannels_cons_stopped colorWrap m now r _ hs,
        mediateChannels_cons_stopped colorWrap m now r pre hs]

/-- A handler that leaves the process running made no call on the default
logger, when the base logger is another logger. -/
theorem selectCase_running_base (colorWrap : Color → String → String) (m : Mylogger)
    (now : Time) (r : Recv) (hb : m.baseLogger ≠ LoggerRef.Default)
    (h : (selectCase colorWrap m now r).status = Status.running) :
    (selectCase colorWrap m now r).effects.filter Effect.onDefault = [] := by
  rcases r with ⟨c, e⟩ | _ | s
  · cases c <;> cases e <;>
      simp_all [selectCase, convertToError, genericExitSequence, Effect.onDefault,
        Effect.logger]
  · simp [selectCase, genericExitSequence] at h
  · simp [selectCase, convertToError, genericExitSequence] at h

/-- A run that is still in the loop made no call on the default logger, when
the base logger is another logger. -/
theorem mediateChannels_running_base (colorWrap : Color → String → String) (m : Mylogger)
    (now : Time) (pre : List Recv) (hb : m.baseLogger ≠ LoggerRef.Default)
    (h : (mediateChannels colorWrap m now pre).status = Status.running) :
    (mediateChannels colorWrap m now pre).effects.filter Effect.onDefault = [] := by
  induction pre with
  | nil => simp [mediateChannels]
  | cons r pre ih =>
    by_cases hs : (selectCase colorWrap m now r).status = Status.running
    · rw [mediateChannels_cons_running colorWrap m now r pre hs] at h ⊢
      simp only [List.filter_append, selectCase_running_base colorWrap m now r hb hs, ih h,
        List.append_nil]
    · rw [mediateChannels_cons_stopped colorWrap m now r pre hs] at h
      exact absurd h hs

/-- The receive of a trigger of the exit sequence ends the run there. -/
theorem mediateChannels_trigger (colorWrap : Color → String → String) (m : Mylogger)
    (now : Time) (pre rest : List Recv) (r : Recv)
    (hpre : (mediateChannels colorWrap m now pre).status = Status.running)
    (hr : (selectCase colorWrap m now r).status ≠ Status.running) :
    mediateChannels colorWrap m now (pre ++ r :: rest) =
      ⟨(mediateChannels colorWrap m now pre).effects ++ (selectCase colorWrap m now r).effects,
       (selectCase colorWrap m now r).status⟩ := by
  rw [mediateChannels_append colorWrap m now pre (r :: rest) hpre,
    mediateChannels_cons_stopped colorWrap m now r rest hr]

/-! ### Where the non-critical arms do write the built line -/

/-- A text that ends in a newline is written as it is. -/
theorem logOutput_newline (s : String) : logOutput (s ++ "\n") = s ++ "\n" := by
  simp [logOutput]

/-- The model of `Sprintf` without operands on the cases documented by
package `fmt` and on a `.` that ends the format. -/
theorem Sprintf0_examples :
    Sprintf0 "hi%d" = "hi%!d(MISSING)" ∧ Sprintf0 "%" = "%!(NOVERB)" ∧
    Sprintf0 "a%%b" = "a%b" ∧ Sprintf0 "50%." = "50%!.(MISSING)" ∧
    Sprintf0 "%.2f" = "%!f(MISSING)" := by
  refine ⟨?_, ?_, ?_, ?_, ?_⟩ <;> decide

/-- A format without a `%` is printed as it is. -/
theorem Sprintf0_no_percent (format : String) (h : '%' ∉ format.toList) :
    Sprintf0 format = format := by
  have htake : format.toList.takeWhile (fun c => c != '%') = format.toList := by
    rw [List.takeWhile_eq_self_iff]
    intro x hx
    simp only [bne_iff_ne, ne_eq]
    rintro rfl
    exact h hx
  have hdrop : format.toList.dropWhile (fun c => c != '%') = [] := by
    rw [List.dropWhile_eq_nil_iff]
    intro x hx
    simp only [bne_iff_ne, ne_eq]
    rintro rfl
    exact h hx
  simp only [Sprintf0, doPrintfLoop, htake, hdrop]
  simp

/-- A run of receives from one severity channel other than the critical one,
all with payloads that are errors or strings: one write per receive, in
order, each carrying the wrapped tag, a space and the message, and the loop
is still running. -/
theorem noncritical_run_supported (colorWrap : Color → String → String) (m : Mylogger)
    (now : Time) (c : Severity) (ps : List GoAny) (hc : c ≠ Severity.crit)
    (hps : ∀ p ∈ ps, p.unsupported = false) :
    mediateChannels colorWrap m now (ps.map (Recv.sev c)) =
      ⟨ps.map (fun p => c.write m.baseLogger (colorWrap c.color c.tag ++ " " ++
          ((convertToError p).map GoError.Error).getD "")),
       Status.running⟩ := by
  induction ps with
  | nil => simp [mediateChannels]
  | cons p ps ih =>
    have hp : p.unsupported = false := hps p (List.mem_cons_self p ps)
    have hrest := ih (fun q hq => hps q (List.mem_cons_of_mem p hq))
    have hstep : selectCase colorWrap m now (Recv.sev c p) =
        ⟨[c.write m.baseLogger (colorWrap c.color c.tag ++ " " ++
          ((convertToError p).map GoError.Error).getD "")], Status.running⟩ := by
      cases c <;> cases p <;>
        simp_all [GoAny.unsupported, selectCase, convertToError, errorsNew, Severity.write,
          Severity.color, Severity.tag]
    rw [List.map_cons, mediateChannels_cons_running colorWrap m now _ _ (by rw [hstep]),
      hrest, hstep]
    simp

/-! ### The claims -/

/-- C1: a payload that is neither an error nor a string makes `convertToError`
return nil, and the handler of every severity channel then panics on the call
of `Error()` through the nil interface, before any write. -/
theorem unsupported_payload_panics (colorWrap : Color → String → String) (m : Mylogger)
    (now : Time) (c : Severity) (a : GoAny) (h : a.unsupported = true) :
    convertToError a = none ∧
    selectCase colorWrap m now (Recv.sev c a) = ⟨[], Status.panicked⟩ := by
  cases a <;> cases c <;> simp_all [GoAny.unsupported, convertToError, selectCase]

/-- C1, at the payload `42` on the error channel of a fresh logger. -/
theorem unsupported_payload_panics_witness :
    (GoAny.int 42).unsupported = true ∧
    convertToError (GoAny.int 42) = none ∧
    selectCase sampleWrap (StartLogger (LoggerRef.New 1)) ⟨5⟩ (Recv.sev Severity.err (GoAny.int 42)) =
      ⟨[], Status.panicked⟩ :=
  ⟨rfl, unsupported_payload_panics sampleWrap (StartLogger (LoggerRef.New 1)) ⟨5⟩ Severity.err (GoAny.int 42) rfl⟩

/-- C3: the string payload `100%` is written verbatim after the tag by the
error channel, whose arm calls `Println`, and is written with the text
`%!(NOVERB)` in place of the `%` by the info and debug channels, whose arms
pass the message to `Printf` as the format. -/
theorem printf_arms_mangle_percent :
    (mediateChannels sampleWrap (StartLogger (LoggerRef.New 1)) ⟨5⟩
        [Recv.sev Severity.err (GoAny.string "100%")]).effects.map Effect.written =
      [some (sampleWrap Color.RED "ERROR" ++ " " ++ "100%" ++ "\n")] ∧
    (mediateChannels sampleWrap (StartLogger (LoggerRef.New 1)) ⟨5⟩
        [Recv.sev Severity.info (GoAny.string "100%")]).effects.map Effect.written =
      [some (sampleWrap Color.WHITE "INFO" ++ " " ++ "100%!(NOVERB)" ++ "\n")] ∧
    (mediateChannels sampleWrap (StartLogger (LoggerRef.New 1)) ⟨5⟩
        [Recv.sev Severity.debug (GoAny.string "100%")]).effects.map Effect.written =
      [some (sampleWrap Color.BLUE "DEBUG" ++ " " ++ "100%!(NOVERB)" ++ "\n")] := by
  refine ⟨?_, ?_, ?_⟩ <;> decide

/-- C4: `StartLogger` leaves the field `start` at the zero time, so
`StartTime()` returns the zero time whenever `StartLogger` was called, and the
exit sequence reports the time since the zero time: for a logger started
`63900000000` seconds after the zero time and stopped five seconds later the
reported duration is the largest duration, not five seconds. -/
theorem StartLogger_start_unset (logger : LoggerRef) :
    (StartLogger logger).StartTime = Time.zero ∧
    (∀ now : Time, (genericExitSequence (StartLogger logger) now none).effects =
      [Effect.Println logger "Server stopped",
       Effect.Printf logger "Server ran for %s" [Value.duration (timeSince now Time.zero)]]) ∧
    timeSince ⟨63900000005 * 1000000000⟩ (StartLogger logger).StartTime = maxDuration ∧
    timeSince ⟨63900000005 * 1000000000⟩ ⟨63900000000 * 1000000000⟩ = 5 * 1000000000 := by
  refine ⟨rfl, fun _ => rfl, ?_, ?_⟩
  · show timeSince ⟨63900000005 * 1000000000⟩ Time.zero = maxDuration
    decide
  · decide

/-- C5: when the loop receives a critical payload that is an error or a string
with message `msg`, the run ends with exit status 1 after three calls: the
built error, whose text is the wrapped tag `CRITICAL`, a space and `msg`, is
printed on the default logger, then `Server stopped` and `Server ran for` are
printed on the base logger; what is still pending is not handled. -/
theorem critical_event_shutdown (colorWrap : Color → String → String) (m : Mylogger)
    (now : Time) (pre rest : List Recv) (a : GoAny) (msg : String)
    (hpre : (mediateChannels colorWrap m now pre).status = Status.running)
    (ha : a = GoAny.error ⟨msg⟩ ∨ a = GoAny.string msg) :
    mediateChannels colorWrap m now (pre ++ Recv.sev Severity.crit a :: rest) =
      ⟨(mediateChannels colorWrap m now pre).effects ++
        [Effect.Printf LoggerRef.Default "Error: %v"
            [Value.error (errorsNew (colorWrap Color.PURPLE "CRITICAL" ++ " " ++ msg))],
         Effect.Println m.baseLogger "Server stopped",
         Effect.Printf m.baseLogger "Server ran for %s" [Value.duration (timeSince now m.StartTime)]],
       Status.exited 1⟩ := by
  rw [mediateChannels_trigger colorWrap m now pre rest _ hpre]
  · rcases ha with rfl | rfl <;>
      simp [selectCase, convertToError, genericExitSequence, errorsNew]
  · rcases ha with rfl | rfl <;>
      simp [selectCase, convertToError, genericExitSequence]

/-- C5, at the critical string payload `boom` with an error event pending. -/
theorem critical_event_shutdown_witness :
    (mediateChannels sampleWrap (StartLogger (LoggerRef.New 1)) ⟨5⟩ []).status = Status.running ∧
    mediateChannels sampleWrap (StartLogger (LoggerRef.New 1)) ⟨5⟩
        ([] ++ Recv.sev Severity.crit (GoAny.string "boom") ::
          [Recv.sev Severity.err (GoAny.string "late")]) =
      ⟨(mediateChannels sampleWrap (StartLogger (LoggerRef.New 1)) ⟨5⟩ []).effects ++
        [Effect.Printf LoggerRef.Default "Error: %v"
            [Value.error (errorsNew (sampleWrap Color.PURPLE "CRITICAL" ++ " " ++ "boom"))],
         Effect.Println (LoggerRef.New 1) "Server stopped",
         Effect.Printf (LoggerRef.New 1) "Server ran for %s"
            [Value.duration (timeSince ⟨5⟩ (StartLogger (LoggerRef.New 1)).StartTime)]],
       Status.exited 1⟩ :=
  ⟨rfl, critical_event_shutdown sampleWrap (StartLogger (LoggerRef.New 1)) ⟨5⟩ []
    [Recv.sev Severity.err (GoAny.string "late")] (GoAny.string "boom") "boom" rfl (Or.inr rfl)⟩

/-- C6, as stated, at the logger of the usage example,
`StartLogger(log.Default())`, and an exit request: the run ends with exit
status 0, and its two closing lines are calls on the default logger, the
fallback stream, which therefore is written to. -/
theorem graceful_shutdown_writes_default :
    (mediateChannels sampleWrap (StartLogger LoggerRef.Default) ⟨5⟩ [Recv.exit]).status =
      Status.exited 0 ∧
    (mediateChannels sampleWrap (StartLogger LoggerRef.Default) ⟨5⟩
        [Recv.exit]).effects.filter Effect.onDefault =
      [Effect.Println LoggerRef.Default "Server stopped",
       Effect.Printf LoggerRef.Default "Server ran for %s" [Value.duration 5]] ∧
    ¬ ((mediateChannels sampleWrap (StartLogger LoggerRef.Default) ⟨5⟩
        [Recv.exit]).effects.filter Effect.onDefault = []) := by
  refine ⟨?_, ?_, ?_⟩ <;> decide

/-- C6, amended: when the loop receives an exit request, the run ends with
exit status 0 after `Server stopped` and `Server ran for` are printed on the
base logger; when it receives a signal, one line with the wrapped tag
`INTSIGNAL`, a space and the name of the signal is printed on the base logger
before these two; and when the base logger is not the default logger, no
call is made on the default logger in either run. -/
theorem graceful_shutdown (colorWrap : Color → String → String) (m : Mylogger)
    (now : Time) (pre rest : List Recv)
    (hpre : (mediateChannels colorWrap m now pre).status = Status.running) :
    (mediateChannels colorWrap m now (pre ++ Recv.exit :: rest) =
      ⟨(mediateChannels colorWrap m now pre).effects ++
        [Effect.Println m.baseLogger "Server stopped",
         Effect.Printf m.baseLogger "Server ran for %s"
            [Value.duration (timeSince now m.StartTime)]],
       Status.exited 0⟩ ∧
     (m.baseLogger ≠ LoggerRef.Default →
      (mediateChannels colorWrap m now (pre ++ Recv.exit :: rest)).effects.filter
        Effect.onDefault = [])) ∧
    (∀ s : Signal,
      mediateChannels colorWrap m now (pre ++ Recv.SIGS s :: rest) =
        ⟨(mediateChannels colorWrap m now pre).effects ++
          [Effect.Println m.baseLogger (colorWrap Color.PURPLE "INTSIGNAL" ++ " " ++ s.name),
           Effect.Println m.baseLogger "Server stopped",
           Effect.Printf m.baseLogger "Server ran for %s"
              [Value.duration (timeSince now m.StartTime)]],
         Status.exited 0⟩ ∧
      (m.baseLogger ≠ LoggerRef.Default →
       (mediateChannels colorWrap m now (pre ++ Recv.SIGS s :: rest)).effects.filter
        Effect.onDefault = [])) := by
  have hexit : mediateChannels colorWrap m now (pre ++ Recv.exit :: rest) =
      ⟨(mediateChannels colorWrap m now pre).effects ++
        [Effect.Println m.baseLogger "Server stopped",
         Effect.Printf m.baseLogger "Server ran for %s"
            [Value.duration (timeSince now m.StartTime)]],
       Status.exited 0⟩ := by
    rw [mediateChannels_trigger colorWrap m now pre rest _ hpre]
    · simp [selectCase, genericExitSequence]
    · simp [selectCase, genericExitSequence]
  have hsig : ∀ s : Signal, mediateChannels colorWrap m now (pre ++ Recv.SIGS s :: rest) =
        ⟨(mediateChannels colorWrap m now pre).effects ++
          [Effect.Println m.baseLogger (colorWrap Color.PURPLE "INTSIGNAL" ++ " " ++ s.name),
           Effect.Println m.baseLogger "Server stopped",
           Effect.Printf m.baseLogger "Server ran for %s"
              [Value.duration (timeSince now m.StartTime)]],
         Status.exited 0⟩ := by
    intro s
    rw [mediateChannels_trigger colorWrap m now pre rest _ hpre]
    · simp [selectCase, convertToError, genericExitSequence, errorsNew]
    · simp [selectCase, convertToError, genericExitSequence]
  refine ⟨⟨hexit, fun hb => ?_⟩, fun s => ⟨hsig s, fun hb => ?_⟩⟩
  · rw [hexit]
    simp [List.filter_append, mediateChannels_running_base colorWrap m now pre hb hpre,
      Effect.onDefault, Effect.logger, hb]
  · rw [hsig s]
    simp [List.filter_append, mediateChannels_running_base colorWrap m now pre hb hpre,
      Effect.onDefault, Effect.logger, hb]

/-- C6, amended, after one info event, with a debug event still pending, for
a base logger other than the default logger. -/
theorem graceful_shutdown_witness :
    (mediateChannels sampleWrap (StartLogger (LoggerRef.New 1)) ⟨5⟩
        [Recv.sev Severity.info (GoAny.string "up")]).status = Status.running ∧
    (StartLogger (LoggerRef.New 1)).baseLogger ≠ LoggerRef.Default ∧
    (mediateChannels sampleWrap (StartLogger (LoggerRef.New 1)) ⟨5⟩
        ([Recv.sev Severity.info (GoAny.string "up")] ++ Recv.exit ::
          [Recv.sev Severity.debug (GoAny.string "late")]) =
      ⟨(mediateChannels sampleWrap (StartLogger (LoggerRef.New 1)) ⟨5⟩
          [Recv.sev Severity.info (GoAny.string "up")]).effects ++
        [Effect.Println (LoggerRef.New 1) "Server stopped",
         Effect.Printf (LoggerRef.New 1) "Server ran for %s"
            [Value.duration (timeSince ⟨5⟩ (StartLogger (LoggerRef.New 1)).StartTime)]],
       Status.exited 0⟩ ∧
     (mediateChannels sampleWrap (StartLogger (LoggerRef.New 1)) ⟨5⟩
        ([Recv.sev Severity.info (GoAny.string "up")] ++ Recv.exit ::
          [Recv.sev Severity.debug (GoAny.string "late")])).effects.filter
        Effect.onDefault = []) ∧
    (mediateChannels sampleWrap (StartLogger (LoggerRef.New 1)) ⟨5⟩
        ([Recv.sev Severity.info (GoAny.string "up")] ++ Recv.SIGS Signal.SIGTERM ::
          [Recv.sev Severity.debug (GoAny.string "late")]) =
      ⟨(mediateChannels sampleWrap (StartLogger (LoggerRef.New 1)) ⟨5⟩
          [Recv.sev Severity.info (GoAny.string "up")]).effects ++
        [Effect.Println (LoggerRef.New 1)
            (sampleWrap Color.PURPLE "INTSIGNAL" ++ " " ++ Signal.SIGTERM.name),
         Effect.Println (LoggerRef.New 1) "Server stopped",
         Effect.Printf (LoggerRef.New 1) "Server ran for %s"
            [Value.duration (timeSince ⟨5⟩ (StartLogger (LoggerRef.New 1)).StartTime)]],
       Status.exited 0⟩ ∧
     (mediateChannels sampleWrap (StartLogger (LoggerRef.New 1)) ⟨5⟩
        ([Recv.sev Severity.info (GoAny.string "up")] ++ Recv.SIGS Signal.SIGTERM ::
          [Recv.sev Severity.debug (GoAny.string "late")])).effects.filter
        Effect.onDefault = []) := by
  have hb : (StartLogger (LoggerRef.New 1)).baseLogger ≠ LoggerRef.Default := by decide
  have h := graceful_shutdown sampleWrap (StartLogger (LoggerRef.New 1)) ⟨5⟩
    [Recv.sev Severity.info (GoAny.string "up")]
    [Recv.sev Severity.debug (GoAny.string "late")] rfl
  exact ⟨rfl, hb, ⟨h.1.1, h.1.2 hb⟩, ⟨(h.2 Signal.SIGTERM).1, (h.2 Signal.SIGTERM).2 hb⟩⟩

/-- C7: three events received from the error channel alone, the second with
the payload `42`: the loop makes one write, for the first event, and then
panics on the second, so the third is never written and the process ends. -/
theorem error_channel_run_panics (colorWrap : Color → String → String) (m : Mylogger)
    (now : Time) :
    mediateChannels colorWrap m now
        [Recv.sev Severity.err (GoAny.string "a"), Recv.sev Severity.err (GoAny.int 42),
         Recv.sev Severity.err (GoAny.string "b")] =
      ⟨[Effect.Println m.baseLogger (colorWrap Color.RED "ERROR" ++ " " ++ "a")], Status.panicked⟩ := by
  simp [mediateChannels, selectCase, convertToError, errorsNew]

/-- The last call of a handler that runs the exit sequence is `Server ran for`. -/
theorem selectCase_invokesExit_last (colorWrap : Color → String → String) (m : Mylogger)
    (now : Time) (r : Recv) (h : r.invokesExit = true) :
    (selectCase colorWrap m now r).effects.getLast? =
      some (Effect.Printf m.baseLogger "Server ran for %s"
        [Value.duration (timeSince now m.StartTime)]) := by
  rcases r with ⟨c, e⟩ | _ | s
  · cases c <;> cases e <;>
      simp_all [Recv.invokesExit, selectCase, convertToError, genericExitSequence]
  · simp [selectCase, genericExitSequence]
  · simp [selectCase, convertToError, genericExitSequence]

/-- C9: once the loop, still running after the receives `pre`, receives a
trigger of the exit sequence (a critical payload that is an error or a
string, an exit request or a signal), the run is the same whatever is still
pending behind the trigger: it ends by `os.Exit`, and its last call on a
logger is `Server ran for`. -/
theorem shutdown_is_terminal (colorWrap : Color → String → String) (m : Mylogger)
    (now : Time) (pre rest : List Recv) (r : Recv)
    (hpre : (mediateChannels colorWrap m now pre).status = Status.running)
    (hr : r.invokesExit = true) :
    mediateChannels colorWrap m now (pre ++ r :: rest) =
      mediateChannels colorWrap m now (pre ++ [r]) ∧
    (∃ code, (mediateChannels colorWrap m now (pre ++ r :: rest)).status =
      Status.exited code) ∧
    (mediateChannels colorWrap m now (pre ++ r :: rest)).effects.getLast? =
      some (Effect.Printf m.baseLogger "Server ran for %s"
        [Value.duration (timeSince now m.StartTime)]) := by
  obtain ⟨code, hcode⟩ := (selectCase_status_exited_iff colorWrap m now r).mp hr
  have hne : (selectCase colorWrap m now r).status ≠ Status.running := by
    rw [hcode]; simp
  have hlast := selectCase_invokesExit_last colorWrap m now r hr
  have hnil : (selectCase colorWrap m now r).effects ≠ [] := by
    intro h0
    rw [h0] at hlast
    simp at hlast
  rw [mediateChannels_trigger colorWrap m now pre rest r hpre hne,
    mediateChannels_trigger colorWrap m now pre [] r hpre hne]
  refine ⟨rfl, ⟨code, hcode⟩, ?_⟩
  rw [List.getLast?_append_of_ne_nil _ hnil]
  exact hlast

/-- C9, at an exit request after one error event, with an info event pending. -/
theorem shutdown_is_terminal_witness :
    (mediateChannels sampleWrap (StartLogger (LoggerRef.New 1)) ⟨5⟩
        [Recv.sev Severity.err (GoAny.string "a")]).status = Status.running ∧
    Recv.exit.invokesExit = true ∧
    mediateChannels sampleWrap (StartLogger (LoggerRef.New 1)) ⟨5⟩
        ([Recv.sev Severity.err (GoAny.string "a")] ++ Recv.exit ::
          [Recv.sev Severity.info (GoAny.string "late")]) =
      mediateChannels sampleWrap (StartLogger (LoggerRef.New 1)) ⟨5⟩
        ([Recv.sev Severity.err (GoAny.string "a")] ++ [Recv.exit]) ∧
    (∃ code, (mediateChannels sampleWrap (StartLogger (LoggerRef.New 1)) ⟨5⟩
        ([Recv.sev Severity.err (GoAny.string "a")] ++ Recv.exit ::
          [Recv.sev Severity.info (GoAny.string "late")])).status = Status.exited code) ∧
    (mediateChannels sampleWrap (StartLogger (LoggerRef.New 1)) ⟨5⟩
        ([Recv.sev Severity.err (GoAny.string "a")] ++ Recv.exit ::
          [Recv.sev Severity.info (GoAny.string "late")])).effects.getLast? =
      some (Effect.Printf (LoggerRef.New 1) "Server ran for %s"
        [Value.duration (timeSince ⟨5⟩ (StartLogger (LoggerRef.New 1)).StartTime)]) :=
  ⟨rfl, rfl, shutdown_is_terminal sampleWrap (StartLogger (LoggerRef.New 1)) ⟨5⟩
    [Recv.sev Severity.err (GoAny.string "a")]
    [Recv.sev Severity.info (GoAny.string "late")] Recv.exit rfl rfl⟩

/-- C10: the text built in the arm of each severity channel, for a payload
that is an error or a string, is `colorWrap` of the colour and the tag of that
channel, one space, and the message; the arm of the signal channel builds the
wrapped tag `INTSIGNAL`, one space and the name of the signal; the tags of
the five severity channels are `CRITICAL`, `ERROR`, `WARNING`, `INFO` and
`DEBUG`, and no two channels share one. -/
theorem tag_matches_channel (colorWrap : Color → String → String) (m : Mylogger)
    (now : Time) :
    (∀ (c : Severity) (e : GoError),
      (selectCase colorWrap m now (Recv.sev c (GoAny.error e))).builtText =
        some (colorWrap c.color c.tag ++ " " ++ e.Error)) ∧
    (∀ (c : Severity) (s : String),
      (selectCase colorWrap m now (Recv.sev c (GoAny.string s))).builtText =
        some (colorWrap c.color c.tag ++ " " ++ s)) ∧
    (∀ sg : Signal,
      (selectCase colorWrap m now (Recv.SIGS sg)).builtText =
        some (colorWrap Color.PURPLE "INTSIGNAL" ++ " " ++ sg.name)) ∧
    (Severity.crit.tag = "CRITICAL" ∧ Severity.err.tag = "ERROR" ∧
      Severity.warn.tag = "WARNING" ∧ Severity.info.tag = "INFO" ∧
      Severity.debug.tag = "DEBUG") ∧
    Function.Injective Severity.tag := by
  refine ⟨?_, ?_, ?_, ⟨rfl, rfl, rfl, rfl, rfl⟩, ?_⟩
  · intro c e
    cases c <;> rfl
  · intro c s
    cases c <;> rfl
  · intro sg
    rfl
  · intro a b h
    cases a <;> cases b <;> first | rfl | exact absurd h (by decide)

end Logger
